import Mathlib

/-
Verification of the symphony client (frontend session state and whiteboard).

Shallow embedding of:
  - src/frontend/src/context/game-state.tsx
      data model (Player, Song, GameState), initialGameState, the socket
      event handlers registered in joinGame, and the useGameState accessor;
  - src/unnamed/part_001 (the Whiteboard component)
      the draw pointer handler and the handleSubmit click handler.

Conventions of the embedding:
  - JS strings are Lean String, JS numbers used as pointer coordinates are
    Int, JS arrays are List.
  - A nullable JS value is an Option.
  - React setState with a functional update applies on top of the previous
    state, so a handler is a pure function GameState -> GameState; the
    updateGameState helper performs a shallow merge, rendered here as a
    record update that only touches the fields the handler supplies.
  - The socket held by the provider is rendered as a Bool flag on the
    client state: true while a connected socket instance is installed,
    false after disconnect and setSocket(null).  socket.io delivers no
    inbound event to a disconnected socket, so event processing is guarded
    on that flag (processInbound).
-/

namespace Symphony

/-- Player, from game-state.tsx lines 7-11.  The hasSubmitted property is
optional in the source, hence an Option here. -/
structure Player where
  id : String
  nickname : String
  hasSubmitted : Option Bool
  deriving DecidableEq

/-- Verse, from game-state.tsx lines 13-17. -/
structure Verse where
  lyrics : String
  image : String
  author : String
  deriving DecidableEq

/-- Song, from game-state.tsx lines 19-26. -/
structure Song where
  title : String
  cover : String
  verses : List Verse
  genre : String
  shortGenre : String
  url : String
  deriving DecidableEq

/-- One element of GameState.drawings, from game-state.tsx lines 41-46. -/
structure DrawingRecord where
  playerId : String
  nickname : String
  imageData : String
  submitted : Bool
  deriving DecidableEq

/-- GameState, from game-state.tsx lines 28-47.  Nullable fields
(playerId, submitError, song, joinError) are Options. -/
structure GameState where
  players : List Player
  isAdmin : Bool
  playerId : Option String
  nickname : String
  hasSubmittedDrawing : Bool
  waitingForOthersToSubmit : Bool
  isSubmittingDrawing : Bool
  submitError : Option String
  song : Option Song
  allPlayersSubmitted : Bool
  hasJoined : Bool
  joinError : Option String
  drawings : List DrawingRecord
  deriving DecidableEq

/-- initialGameState, from game-state.tsx lines 59-75. -/
def initialGameState : GameState :=
  { players := []
    playerId := none
    nickname := ""
    isAdmin := false
    isSubmittingDrawing := false
    hasSubmittedDrawing := false
    waitingForOthersToSubmit := false
    allPlayersSubmitted := false
    submitError := none
    song := none
    hasJoined := false
    joinError := none
    drawings := [] }

/-- Payload of the drawingSubmitted and drawingUpdate events, from
game-state.tsx lines 211 and 231. -/
structure DrawingPayload where
  playerId : String
  nickname : String
  imageData : String
  deriving DecidableEq

/-- The record built by spreading a drawing payload and adding a submitted
flag, as in the object literals at game-state.tsx lines 218, 223, 238-241
and 246. -/
def DrawingPayload.record (d : DrawingPayload) (submitted : Bool) : DrawingRecord :=
  { playerId := d.playerId, nickname := d.nickname, imageData := d.imageData,
    submitted := submitted }

/-- The lookup predicate used by both drawing handlers, from the findIndex
callbacks at game-state.tsx lines 214 and 234. -/
def drawingPred (pid : String) : DrawingRecord → Bool :=
  fun d => d.playerId == pid

/-- Handler of the drawingSubmitted event, game-state.tsx lines 209-227.
JS findIndex returns -1 exactly when List.findIdx returns the length, so
the test existingIndex !== -1 becomes existingIndex < length. -/
def applyDrawingSubmitted (prev : GameState) (d : DrawingPayload) : GameState :=
  let existingIndex := prev.drawings.findIdx (drawingPred d.playerId)
  if existingIndex < prev.drawings.length then
    { prev with drawings := prev.drawings.set existingIndex (d.record true) }
  else
    { prev with drawings := prev.drawings ++ [d.record true] }

/-- Handler of the drawingUpdate event, game-state.tsx lines 229-250.  On a
hit the new record keeps the submitted flag of the record at the existing
index. -/
def applyDrawingUpdate (prev : GameState) (d : DrawingPayload) : GameState :=
  let existingIndex := prev.drawings.findIdx (drawingPred d.playerId)
  if h : existingIndex < prev.drawings.length then
    let kept := (prev.drawings.get ⟨existingIndex, h⟩).submitted
    { prev with drawings := prev.drawings.set existingIndex (d.record kept) }
  else
    { prev with drawings := prev.drawings ++ [d.record false] }

/-- The coordinator-originated events the provider registers handlers for
in joinGame (game-state.tsx lines 114-250).  The transport lifecycle
notices connect and reconnect are modelled separately (TransportNotice)
because their handlers emit rather than update the store. -/
inductive ServerEvent where
  | connectError
  | reconnectError
  | kicked
  | adminJoined
  | joinRejected (reason : String)
  | lobbyUpdate (updatedPlayers : List Player)
  | displaySong (songData : Song)
  | serverError (errorMessage : String)
  | allDrawingsSubmitted
  | drawingSubmitted (drawing : DrawingPayload)
  | drawingUpdate (drawing : DrawingPayload)
  deriving DecidableEq

/-- The store update each inbound event performs, read off the handler
bodies in game-state.tsx.  The kicked handler first replaces the whole
state with initialGameState and then merges in joinError (lines 152-159),
so its net store effect is initialGameState with joinError set. -/
def applyStoreEvent (gs : GameState) : ServerEvent → GameState
  | .connectError =>
      { gs with joinError := some "Failed to connect to server. Retrying...",
                hasJoined := false }
  | .reconnectError =>
      { gs with joinError := some "Failed to reconnect to server",
                hasJoined := false }
  | .kicked =>
      { initialGameState with joinError := some "You were kicked" }
  | .adminJoined => { gs with isAdmin := true }
  | .joinRejected reason =>
      { gs with joinError := some reason, hasJoined := false }
  | .lobbyUpdate updatedPlayers => { gs with players := updatedPlayers }
  | .displaySong songData => { gs with song := some songData }
  | .serverError errorMessage =>
      { gs with submitError := some errorMessage, isSubmittingDrawing := false }
  | .allDrawingsSubmitted =>
      { gs with waitingForOthersToSubmit := false, allPlayersSubmitted := true }
  | .drawingSubmitted drawing => applyDrawingSubmitted gs drawing
  | .drawingUpdate drawing => applyDrawingUpdate gs drawing

/-- Whether the handler of the event also tears the socket down
(newSocket.disconnect() followed by setSocket(null)): true for kicked
(lines 155-156) and joinRejected (lines 174-175) only. -/
def closesSocket : ServerEvent → Bool
  | .kicked => true
  | .joinRejected _ => true
  | _ => false

/-- Provider-level state: the mirrored game state plus whether a connected
socket instance is currently installed. -/
structure ClientState where
  gameState : GameState
  socket : Bool
  deriving DecidableEq

/-- Effect of one inbound event on the provider state. -/
def handleInbound (s : ClientState) (e : ServerEvent) : ClientState :=
  { gameState := applyStoreEvent s.gameState e,
    socket := if closesSocket e then false else s.socket }

/-- Inbound delivery: socket.io hands an event to the handlers only while
the socket is connected; after disconnect() nothing is delivered, even
events already buffered. -/
def processInbound (s : ClientState) (e : ServerEvent) : ClientState :=
  if s.socket then handleInbound s e else s

/-! Transport lifecycle notices and the joinLobby emissions of joinGame
(game-state.tsx lines 93-150).  joinGame generates a fresh playerId, and
the handlers it registers close over three things: the local variables
playerId and nickname, and the gameState value of the render in which
joinGame was produced (React state reads inside an event handler see that
snapshot, not the state as later updated).  At client start that snapshot
is initialGameState.  socket.io fires the connect event on the socket both
on the first connection and again after every successful reconnection, and
additionally fires reconnect on a successful reconnection. -/

/-- Payload of the outbound joinLobby request, game-state.tsx lines
125-128 and 143-146. -/
structure JoinLobbyPayload where
  playerId : String
  nickname : String
  deriving DecidableEq

/-- Transport lifecycle notices delivered to the handlers registered at
game-state.tsx lines 122 (reconnect) and 142 (connect). -/
inductive TransportNotice where
  | connected
  | reconnected (attemptNumber : Nat)
  deriving DecidableEq

/-- joinLobby requests emitted for one notice.  The connect handler (lines
142-150) always emits the closed-over local playerId and nickname.  The
reconnect handler (lines 122-130) emits only when the captured gameState
snapshot has a truthy nickname (nonempty) and a truthy playerId (non
null), and then emits the snapshot values. -/
def joinLobbyEmissions (pid nick : String) (captured : GameState) :
    TransportNotice → List JoinLobbyPayload
  | .connected => [{ playerId := pid, nickname := nick }]
  | .reconnected _ =>
      if captured.nickname = "" then []
      else
        match captured.playerId with
        | some capturedPid =>
            [{ playerId := capturedPid, nickname := captured.nickname }]
        | none => []

/-- Notices delivered by one successful reconnection: socket.io fires
reconnect on the manager and then connect on the recovered socket. -/
def reconnectionNotices (attemptNumber : Nat) : List TransportNotice :=
  [.reconnected attemptNumber, .connected]

/-- Notice trace of a session: the initial connection followed by any
number of successful reconnections. -/
def sessionNotices (attempts : List Nat) : List TransportNotice :=
  .connected :: (attempts.map reconnectionNotices).flatten

/-- All joinLobby payloads the client emits over a notice trace. -/
def joinLobbyLog (pid nick : String) (captured : GameState)
    (notices : List TransportNotice) : List JoinLobbyPayload :=
  (notices.map (joinLobbyEmissions pid nick captured)).flatten

/-! The Whiteboard component, src/unnamed/part_001.  Pointer coordinates
are modelled as Int.  The canvas 2d context is modelled by the list of
segments stroked onto it; toDataURL is an uninterpreted encoding function
passed as a parameter. -/

/-- Point, part_001 lines 6-9. -/
structure Point where
  x : Int
  y : Int
  deriving DecidableEq

/-- A stroked line segment, the payload of the draw event (part_001 line
121).  The source field named end is a Lean keyword, rendered endP. -/
structure Segment where
  start : Point
  endP : Point
  deriving DecidableEq

/-- The drawing surface: the segments stroked onto the 2d context. -/
structure Canvas where
  segments : List Segment
  deriving DecidableEq

/-- Events the whiteboard emits on the socket (part_001 line 121). -/
inductive CanvasOutbound where
  | draw (segment : Segment)
  deriving DecidableEq

/-- Component state of the whiteboard: the isDrawing and lastPoint React
states (part_001 lines 13-14). -/
structure WhiteboardState where
  isDrawing : Bool
  lastPoint : Option Point
  deriving DecidableEq

/-- startDrawing, part_001 lines 99-105. -/
def startDrawing (st : WhiteboardState) (coords : Option Point) : WhiteboardState :=
  match coords with
  | some point => { isDrawing := true, lastPoint := some point }
  | none => st

/-- stopDrawing, part_001 lines 126-129. -/
def stopDrawing (_st : WhiteboardState) : WhiteboardState :=
  { isDrawing := false, lastPoint := none }

/-- Result of one invocation of the draw handler. -/
structure DrawOutcome where
  state : WhiteboardState
  canvas : Option Canvas
  emitted : List CanvasOutbound
  deriving DecidableEq

/-- The draw pointer-move handler, part_001 lines 107-124.  Guard order as
in the source: return unchanged unless isDrawing and lastPoint are set and
getCoordinates produced a point.  When the canvas context is available the
segment from lastPoint to the new point is stroked locally and emitted on
the socket (when one is present); lastPoint advances to the new point in
every path that passes the guards, context or not. -/
def draw (st : WhiteboardState) (canvasRef : Option Canvas)
    (socketPresent : Bool) (coords : Option Point) : DrawOutcome :=
  match st.isDrawing, st.lastPoint with
  | true, some lastPoint =>
      (match coords with
       | none => { state := st, canvas := canvasRef, emitted := [] }
       | some point =>
          match canvasRef with
          | some canvas =>
              { state := { st with lastPoint := some point },
                canvas := some
                  { canvas with
                      segments := canvas.segments ++
                        [{ start := lastPoint, endP := point }] },
                emitted :=
                  if socketPresent then
                    [.draw { start := lastPoint, endP := point }]
                  else [] }
          | none =>
              { state := { st with lastPoint := some point },
                canvas := none, emitted := [] })
  | _, _ => { state := st, canvas := canvasRef, emitted := [] }

/-- Result of one invocation of handleSubmit. -/
structure SubmitOutcome where
  capturedImage : Option String
  emitted : List CanvasOutbound
  deriving DecidableEq

/-- handleSubmit, part_001 lines 139-146: reads the canvas ref and, when a
canvas is mounted, encodes its contents with toDataURL and logs the
result.  The body contains no socket emission and no state update. -/
def handleSubmit (canvasRef : Option Canvas) (toDataURL : Canvas → String) :
    SubmitOutcome :=
  match canvasRef with
  | some canvas => { capturedImage := some (toDataURL canvas), emitted := [] }
  | none => { capturedImage := none, emitted := [] }

/-! The useGameState accessor, game-state.tsx lines 77-82. -/

/-- The provider context value; nothing in useGameState inspects it, the
accessor only null-checks and returns it. -/
structure GameStateContextType where
  socketPresent : Bool
  gameState : GameState
  deriving DecidableEq

/-- useGameState, game-state.tsx lines 77-82: throws when called outside a
SocketProvider (context null), otherwise returns the context value.  The
throw is rendered as the Except error case. -/
def useGameState (context : Option GameStateContextType) :
    Except String GameStateContextType :=
  match context with
  | none => Except.error "useGameState must be used within SocketProvider"
  | some ctx => Except.ok ctx

/-- The two drawing events, for statements quantifying over sequences made
of exactly these. -/
inductive DrawingEvent where
  | submitted (drawing : DrawingPayload)
  | update (drawing : DrawingPayload)
  deriving DecidableEq

/-- Injection of a drawing event into the inbound event type. -/
def DrawingEvent.toServerEvent : DrawingEvent → ServerEvent
  | .submitted drawing => .drawingSubmitted drawing
  | .update drawing => .drawingUpdate drawing

/-! Helper lemmas about findIdx, find? and set, shared by the proofs about
the two drawing upserts. -/

/-- Setting an index back to the element already there leaves the list
unchanged. -/
theorem set_get_same {α : Type _} :
    ∀ (l : List α) (i : Nat) (h : i < l.length), l.set i (l.get ⟨i, h⟩) = l := by
  intro l
  induction l with
  | nil => intro i h; exact absurd h (Nat.not_lt_zero i)
  | cons a t ih =>
    intro i h
    cases i with
    | zero => rfl
    | succ n => exact congrArg (a :: ·) (ih n (Nat.lt_of_succ_lt_succ h))

/-- find? returns the optional element at the index findIdx computes. -/
theorem find?_eq_getElem?_findIdx {α : Type _} (l : List α) (p : α → Bool) :
    l.find? p = l[l.findIdx p]? := by
  induction l with
  | nil => rfl
  | cons a t ih =>
    by_cases hpa : p a
    · simp [List.find?_cons_of_pos _ hpa, List.findIdx_cons, hpa]
    · simp [List.find?_cons_of_neg _ hpa, List.findIdx_cons, hpa, ih]

/-- When find? hits, findIdx lands strictly inside the list. -/
theorem findIdx_lt_of_find?_some {α : Type _} {l : List α} {p : α → Bool} {r : α}
    (h : l.find? p = some r) : l.findIdx p < l.length := by
  rw [find?_eq_getElem?_findIdx] at h
  exact (List.getElem?_eq_some_iff.mp h).1

/-- The element at the findIdx position is the element find? returns. -/
theorem get_findIdx_of_find?_some {α : Type _} {l : List α} {p : α → Bool} {r : α}
    (h : l.find? p = some r) (hlt : l.findIdx p < l.length) :
    l.get ⟨l.findIdx p, hlt⟩ = r := by
  rw [find?_eq_getElem?_findIdx] at h
  obtain ⟨hb, he⟩ := List.getElem?_eq_some_iff.mp h
  simp only [List.get_eq_getElem]
  exact he

/-- After replacing the findIdx position with a matching element, find?
returns exactly that element. -/
theorem find?_set_findIdx {α : Type _} {p : α → Bool} :
    ∀ {l : List α} {x : α}, p x = true → l.findIdx p < l.length →
      (l.set (l.findIdx p) x).find? p = some x := by
  intro l
  induction l with
  | nil => intro x _ h; exact absurd h (Nat.not_lt_zero _)
  | cons a t ih =>
    intro x hx h
    by_cases hpa : p a
    · simp [List.findIdx_cons, hpa, List.find?_cons_of_pos _ hx]
    · simp only [List.findIdx_cons, hpa, cond_false, List.set_cons_succ]
      rw [List.find?_cons_of_neg _ hpa]
      refine ih hx ?_
      simpa [List.findIdx_cons, hpa] using h

/-- Replacing the findIdx position with a matching element does not move
the findIdx position. -/
theorem findIdx_set_findIdx {α : Type _} {p : α → Bool} :
    ∀ {l : List α} {x : α}, p x = true → l.findIdx p < l.length →
      (l.set (l.findIdx p) x).findIdx p = l.findIdx p := by
  intro l
  induction l with
  | nil => intro x _ h; exact absurd h (Nat.not_lt_zero _)
  | cons a t ih =>
    intro x hx h
    by_cases hpa : p a
    · simp [List.findIdx_cons, hpa, hx]
    · simp only [List.findIdx_cons, hpa, cond_false, List.set_cons_succ]
      exact congrArg (· + 1) (ih hx (by simpa [List.findIdx_cons, hpa] using h))

/-- A missed findIdx is exactly the length. -/
theorem findIdx_eq_length_of_not_lt {α : Type _} {l : List α} {p : α → Bool}
    (h : ¬ l.findIdx p < l.length) : l.findIdx p = l.length :=
  Nat.le_antisymm (List.findIdx_le_length p) (Nat.le_of_not_lt h)

/-- find? misses when findIdx equals the length. -/
theorem find?_eq_none_of_not_lt {α : Type _} {l : List α} {p : α → Bool}
    (h : ¬ l.findIdx p < l.length) : l.find? p = none := by
  rw [find?_eq_getElem?_findIdx, findIdx_eq_length_of_not_lt h]
  exact List.getElem?_eq_none (Nat.le_refl _)

/-- Appending a matching element to a list with no match puts findIdx on
the appended element. -/
theorem findIdx_append_singleton {α : Type _} {l : List α} {p : α → Bool} {x : α}
    (h : ¬ l.findIdx p < l.length) (hx : p x = true) :
    (l ++ [x]).findIdx p = l.length := by
  rw [List.findIdx_append, if_neg h, List.findIdx_cons, hx]
  simp

/-! Claim theorems. -/

/-- C1: after a kicked event is handled on an open socket, the session
state equals the initial default state exactly except that joinError is
"You were kicked", the socket is closed, and no further inbound event,
buffered or not, changes anything. -/
theorem kicked_full_reset (s : ClientState) (hopen : s.socket = true) :
    (processInbound s .kicked).gameState
        = { initialGameState with joinError := some "You were kicked" }
    ∧ (processInbound s .kicked).socket = false
    ∧ ∀ e : ServerEvent,
        processInbound (processInbound s .kicked) e = processInbound s .kicked := by
  refine ⟨?_, ?_, ?_⟩
  · simp [processInbound, hopen, handleInbound, applyStoreEvent]
  · simp [processInbound, hopen, handleInbound, closesSocket]
  · intro e
    simp [processInbound, hopen, handleInbound, closesSocket]

/-- C1 witness: the theorem at the freshly joined client, with a buffered
lobbyUpdate arriving after the kick. -/
theorem kicked_full_reset_witness :
    (processInbound ⟨initialGameState, true⟩ .kicked).gameState
        = { initialGameState with joinError := some "You were kicked" }
    ∧ (processInbound ⟨initialGameState, true⟩ .kicked).socket = false
    ∧ processInbound (processInbound ⟨initialGameState, true⟩ .kicked)
        (.lobbyUpdate [{ id := "p1", nickname := "Ava", hasSubmitted := none }])
        = processInbound ⟨initialGameState, true⟩ .kicked :=
  ⟨(kicked_full_reset ⟨initialGameState, true⟩ rfl).1,
   (kicked_full_reset ⟨initialGameState, true⟩ rfl).2.1,
   (kicked_full_reset ⟨initialGameState, true⟩ rfl).2.2 _⟩

/-- C8: joinRejected(reason) handled on an open socket sets joinError to
the reason and hasJoined to false, leaves the rest of the store untouched,
closes the socket, and is terminal: no later inbound event is processed,
so nothing retries on its own. -/
theorem joinRejected_terminal (s : ClientState) (reason : String)
    (hopen : s.socket = true) :
    (processInbound s (.joinRejected reason)).gameState
        = { s.gameState with joinError := some reason, hasJoined := false }
    ∧ (processInbound s (.joinRejected reason)).socket = false
    ∧ ∀ e : ServerEvent,
        processInbound (processInbound s (.joinRejected reason)) e
          = processInbound s (.joinRejected reason) := by
  refine ⟨?_, ?_, ?_⟩
  · simp [processInbound, hopen, handleInbound, applyStoreEvent]
  · simp [processInbound, hopen, handleInbound, closesSocket]
  · intro e
    simp [processInbound, hopen, handleInbound, closesSocket]

/-- C8 witness: the theorem at the joined client rejected with "Lobby
full", with a later adminJoined left unprocessed. -/
theorem joinRejected_terminal_witness :
    (processInbound ⟨{ initialGameState with hasJoined := true }, true⟩
        (.joinRejected "Lobby full")).gameState
        = { { initialGameState with hasJoined := true } with
              joinError := some "Lobby full", hasJoined := false }
    ∧ (processInbound ⟨{ initialGameState with hasJoined := true }, true⟩
        (.joinRejected "Lobby full")).socket = false
    ∧ processInbound
        (processInbound ⟨{ initialGameState with hasJoined := true }, true⟩
          (.joinRejected "Lobby full")) .adminJoined
        = processInbound ⟨{ initialGameState with hasJoined := true }, true⟩
            (.joinRejected "Lobby full") :=
  ⟨(joinRejected_terminal _ "Lobby full" rfl).1,
   (joinRejected_terminal _ "Lobby full" rfl).2.1,
   (joinRejected_terminal _ "Lobby full" rfl).2.2 _⟩

/-- C4: folding any sequence of lobbyUpdate events over the store leaves
the players list equal to the payload of the last event: wholesale
replacement, no merging with earlier rosters. -/
theorem lobbyUpdate_replaces_wholesale (gs : GameState)
    (evs : List (List Player)) (ps : List Player) :
    (((evs ++ [ps]).map ServerEvent.lobbyUpdate).foldl applyStoreEvent gs).players
      = ps := by
  simp [List.foldl_append, applyStoreEvent]

/-- C10: useGameState with a null context throws exactly the error message
of game-state.tsx line 80, and inside a provider returns the context value
unchanged. -/
theorem useGameState_null_check :
    useGameState none
        = Except.error "useGameState must be used within SocketProvider"
    ∧ ∀ ctx : GameStateContextType, useGameState (some ctx) = Except.ok ctx :=
  ⟨rfl, fun _ => rfl⟩

/-- The reconnection part of the join emission trace: each successful
reconnection yields exactly one joinLobby, with the closed-over playerId
and nickname (the captured initial snapshot keeps the reconnect handler
silent, and the connect handler refires). -/
theorem joinLobby_reconnections (pid nick : String) (attempts : List Nat) :
    ((attempts.map reconnectionNotices).flatten.map
        (joinLobbyEmissions pid nick initialGameState)).flatten
      = List.replicate attempts.length { playerId := pid, nickname := nick } := by
  have h1 : ∀ n : Nat,
      joinLobbyEmissions pid nick initialGameState (.reconnected n) = [] := by
    intro n
    simp [joinLobbyEmissions, initialGameState]
  have h2 : joinLobbyEmissions pid nick initialGameState .connected
      = [{ playerId := pid, nickname := nick }] := rfl
  induction attempts with
  | nil => rfl
  | cons a as ih =>
      simp only [List.map_cons, List.flatten_cons, List.map_append,
        List.flatten_append, ih, reconnectionNotices, List.map_nil,
        List.flatten_nil, h1, h2, List.append_nil, List.nil_append,
        List.cons_append, List.length_cons, List.replicate_succ]

/-- C2: over a session made of the initial connection and any number of
successful reconnections, the client emits exactly one joinLobby per
connection and every payload carries the identical playerId and nickname
generated at the initial join; no new playerId ever appears. -/
theorem joinLobby_identity_stable (pid nick : String) (attempts : List Nat) :
    joinLobbyLog pid nick initialGameState (sessionNotices attempts)
      = List.replicate (attempts.length + 1)
          { playerId := pid, nickname := nick } := by
  have aux := joinLobby_reconnections pid nick attempts
  have h2 : joinLobbyEmissions pid nick initialGameState .connected
      = [{ playerId := pid, nickname := nick }] := rfl
  simp only [joinLobbyLog, sessionNotices, List.map_cons, List.flatten_cons,
    h2, aux, List.cons_append, List.nil_append, List.replicate_succ]

/-- The record built for a payload matches the lookup predicate of its own
playerId. -/
theorem drawingPred_record (d : DrawingPayload) (b : Bool) :
    drawingPred d.playerId (d.record b) = true := by
  simp [drawingPred, DrawingPayload.record]

/-- C5: when the record the findIndex lookup hits for the payload playerId
already has submitted = true, the drawingUpdate upsert leaves a record for
that playerId whose submitted flag is still true (the payload fields with
the preserved flag). -/
theorem drawingUpdate_monotone_submitted (gs : GameState) (d : DrawingPayload)
    (r : DrawingRecord)
    (hfind : gs.drawings.find? (drawingPred d.playerId) = some r)
    (hsub : r.submitted = true) :
    (applyDrawingUpdate gs d).drawings.find? (drawingPred d.playerId)
      = some (d.record true) := by
  have hlt := findIdx_lt_of_find?_some hfind
  have hget := get_findIdx_of_find?_some hfind hlt
  simp only [applyDrawingUpdate]
  rw [dif_pos hlt]
  simp only [hget, hsub]
  exact find?_set_findIdx (drawingPred_record d true) hlt

/-- C5 witness: a record for p2 submitted earlier keeps submitted = true
through a later in-progress update. -/
theorem drawingUpdate_monotone_submitted_witness :
    (applyDrawingUpdate
        { initialGameState with drawings :=
            [{ playerId := "p2", nickname := "Bea", imageData := "A",
               submitted := true }] }
        { playerId := "p2", nickname := "Bea", imageData := "B" }).drawings.find?
        (drawingPred "p2")
      = some { playerId := "p2", nickname := "Bea", imageData := "B",
               submitted := true } :=
  drawingUpdate_monotone_submitted
    { initialGameState with drawings :=
        [{ playerId := "p2", nickname := "Bea", imageData := "A",
           submitted := true }] }
    { playerId := "p2", nickname := "Bea", imageData := "B" }
    { playerId := "p2", nickname := "Bea", imageData := "A", submitted := true }
    rfl rfl

/-- C6: whatever the prior state, a drawingSubmitted event leaves the
record the lookup finds for the payload playerId with submitted = true,
and applying the same event twice equals applying it once. -/
theorem drawingSubmitted_true_idempotent (gs : GameState) (d : DrawingPayload) :
    (applyDrawingSubmitted gs d).drawings.find? (drawingPred d.playerId)
      = some (d.record true)
    ∧ applyDrawingSubmitted (applyDrawingSubmitted gs d) d
      = applyDrawingSubmitted gs d := by
  have hx := drawingPred_record d true
  by_cases hlt : gs.drawings.findIdx (drawingPred d.playerId) < gs.drawings.length
  · constructor
    · simp only [applyDrawingSubmitted, if_pos hlt]
      exact find?_set_findIdx hx hlt
    · have hidx := findIdx_set_findIdx hx hlt
      simp only [applyDrawingSubmitted, if_pos hlt, hidx, List.length_set,
        if_pos hlt, List.set_set]
  · constructor
    · have hnone := find?_eq_none_of_not_lt hlt
      simp only [applyDrawingSubmitted, if_neg hlt]
      simp [hnone, hx]
    · have hidx := findIdx_append_singleton hlt hx
      simp only [applyDrawingSubmitted, if_neg hlt, hidx]
      rw [if_pos (by simp)]
      rw [List.set_append_right _ _ (Nat.le_refl _)]
      simp

/-- Replacing the record at the findIdx position with a record carrying
the looked-up playerId leaves the key list unchanged, hence Nodup. -/
theorem nodup_keys_set_findIdx {l : List DrawingRecord} {pid : String}
    {r : DrawingRecord} (hr : r.playerId = pid)
    (hlt : l.findIdx (drawingPred pid) < l.length)
    (hn : (l.map DrawingRecord.playerId).Nodup) :
    ((l.set (l.findIdx (drawingPred pid)) r).map DrawingRecord.playerId).Nodup := by
  have hfound : l.find? (drawingPred pid)
      = some (l.get ⟨l.findIdx (drawingPred pid), hlt⟩) := by
    rw [find?_eq_getElem?_findIdx]
    simp [List.get_eq_getElem, List.getElem?_eq_getElem hlt]
  have hkey : (l.get ⟨l.findIdx (drawingPred pid), hlt⟩).playerId = pid := by
    simpa [drawingPred] using List.find?_some hfound
  have hmlt : l.findIdx (drawingPred pid) < (l.map DrawingRecord.playerId).length := by
    simpa using hlt
  have hval : r.playerId
      = (l.map DrawingRecord.playerId).get ⟨l.findIdx (drawingPred pid), hmlt⟩ := by
    simp only [List.get_eq_getElem, List.getElem_map]
    rw [hr]
    simp only [List.get_eq_getElem] at hkey
    exact hkey.symm
  rw [List.map_set, hval, set_get_same]
  exact hn

/-- Appending a record whose playerId misses every existing record keeps
the key list Nodup. -/
theorem nodup_keys_append {l : List DrawingRecord} {pid : String}
    {r : DrawingRecord} (hr : r.playerId = pid)
    (hno : ¬ l.findIdx (drawingPred pid) < l.length)
    (hn : (l.map DrawingRecord.playerId).Nodup) :
    ((l ++ [r]).map DrawingRecord.playerId).Nodup := by
  have hmem : pid ∉ l.map DrawingRecord.playerId := by
    intro hmem
    rcases List.mem_map.mp hmem with ⟨x, hxl, hxp⟩
    exact hno (List.findIdx_lt_length.mpr ⟨x, hxl, by simp [drawingPred, hxp]⟩)
  rw [List.map_append]
  simp only [List.map_cons, List.map_nil, hr]
  rw [List.nodup_append]
  refine ⟨hn, List.nodup_singleton pid, ?_⟩
  intro a ha hb
  rw [List.mem_singleton] at hb
  subst hb
  exact hmem ha

/-- One drawing event preserves distinctness of the playerIds of the
drawings list. -/
theorem nodup_keys_step (gs : GameState) (e : DrawingEvent)
    (hn : (gs.drawings.map DrawingRecord.playerId).Nodup) :
    ((applyStoreEvent gs e.toServerEvent).drawings.map DrawingRecord.playerId).Nodup := by
  cases e with
  | submitted d =>
      simp only [DrawingEvent.toServerEvent, applyStoreEvent, applyDrawingSubmitted]
      by_cases hlt : gs.drawings.findIdx (drawingPred d.playerId) < gs.drawings.length
      · rw [if_pos hlt]
        exact nodup_keys_set_findIdx (by simp [DrawingPayload.record]) hlt hn
      · rw [if_neg hlt]
        exact nodup_keys_append (by simp [DrawingPayload.record]) hlt hn
  | update d =>
      simp only [DrawingEvent.toServerEvent, applyStoreEvent, applyDrawingUpdate]
      by_cases hlt : gs.drawings.findIdx (drawingPred d.playerId) < gs.drawings.length
      · rw [dif_pos hlt]
        exact nodup_keys_set_findIdx (by simp [DrawingPayload.record]) hlt hn
      · rw [dif_neg hlt]
        exact nodup_keys_append (by simp [DrawingPayload.record]) hlt hn

/-- Folding drawing events preserves distinctness of playerIds. -/
theorem nodup_keys_foldl :
    ∀ (evs : List DrawingEvent) (gs : GameState),
      (gs.drawings.map DrawingRecord.playerId).Nodup →
      (((evs.map DrawingEvent.toServerEvent).foldl applyStoreEvent gs).drawings.map
          DrawingRecord.playerId).Nodup := by
  intro evs
  induction evs with
  | nil => intro gs h; exact h
  | cons e t ih =>
      intro gs h
      simp only [List.map_cons, List.foldl_cons]
      exact ih _ (nodup_keys_step gs e h)

/-- C7: from the initial state, any sequence of the two drawing events
keeps the playerIds of the drawings list pairwise distinct (at most one
record per player); and each upsert, for either event, replaces in place
at the existing index when the playerId matches an existing record and
appends at the end when it does not. -/
theorem drawing_upsert_shape :
    (∀ evs : List DrawingEvent,
        (((evs.map DrawingEvent.toServerEvent).foldl applyStoreEvent
              initialGameState).drawings.map DrawingRecord.playerId).Nodup)
    ∧ (∀ (gs : GameState) (d : DrawingPayload) (r : DrawingRecord),
        gs.drawings.find? (drawingPred d.playerId) = some r →
          (applyDrawingSubmitted gs d).drawings
              = gs.drawings.set (gs.drawings.findIdx (drawingPred d.playerId))
                  (d.record true)
            ∧ (applyDrawingUpdate gs d).drawings
              = gs.drawings.set (gs.drawings.findIdx (drawingPred d.playerId))
                  (d.record r.submitted))
    ∧ (∀ (gs : GameState) (d : DrawingPayload),
        gs.drawings.find? (drawingPred d.playerId) = none →
          (applyDrawingSubmitted gs d).drawings = gs.drawings ++ [d.record true]
            ∧ (applyDrawingUpdate gs d).drawings
              = gs.drawings ++ [d.record false]) := by
  refine ⟨?_, ?_, ?_⟩
  · intro evs
    exact nodup_keys_foldl evs initialGameState (by simp [initialGameState])
  · intro gs d r hfind
    have hlt := findIdx_lt_of_find?_some hfind
    have hget := get_findIdx_of_find?_some hfind hlt
    constructor
    · simp only [applyDrawingSubmitted, if_pos hlt]
    · simp only [applyDrawingUpdate, dif_pos hlt, hget]
  · intro gs d hfind
    have hno : ¬ gs.drawings.findIdx (drawingPred d.playerId)
        < gs.drawings.length := by
      intro hlt
      rw [find?_eq_getElem?_findIdx, List.getElem?_eq_getElem hlt] at hfind
      cases hfind
    constructor
    · simp only [applyDrawingSubmitted, if_neg hno]
    · simp only [applyDrawingUpdate, dif_neg hno]

/-- C7 witness: a matching drawingSubmitted replaces in place at index 0,
and a missing drawingUpdate appends. -/
theorem drawing_upsert_shape_witness :
    (applyDrawingSubmitted
        { initialGameState with drawings :=
            [{ playerId := "p2", nickname := "Bea", imageData := "A",
               submitted := false }] }
        { playerId := "p2", nickname := "Bea", imageData := "C" }).drawings
      = [{ playerId := "p2", nickname := "Bea", imageData := "A",
           submitted := false }].set 0
          { playerId := "p2", nickname := "Bea", imageData := "C",
            submitted := true }
    ∧ (applyDrawingUpdate initialGameState
        { playerId := "p2", nickname := "Bea", imageData := "B" }).drawings
      = initialGameState.drawings ++
          [{ playerId := "p2", nickname := "Bea", imageData := "B",
             submitted := false }] :=
  ⟨(drawing_upsert_shape.2.1
      { initialGameState with drawings :=
          [{ playerId := "p2", nickname := "Bea", imageData := "A",
             submitted := false }] }
      { playerId := "p2", nickname := "Bea", imageData := "C" }
      { playerId := "p2", nickname := "Bea", imageData := "A",
        submitted := false }
      rfl).1,
   (drawing_upsert_shape.2.2 initialGameState
      { playerId := "p2", nickname := "Bea", imageData := "B" } rfl).2⟩

/-- C3 counterexample: handleSubmit at a mounted canvas emits nothing on
the transport, refuting that submit transmits the captured image as a
final submission. -/
theorem handleSubmit_no_transmission :
    (handleSubmit (some { segments := [] })
        (fun _ => "data:image/png;base64,AAAA")).emitted = [] := rfl

/-- C3 amended: handleSubmit captures the current surface through
toDataURL and only logs it; it transmits nothing at all, in particular no
final submission and no draw segment, and performs no state transition, so
it never produces a DrawingRecord with submitted = true. -/
theorem handleSubmit_captures_only (canvas : Canvas)
    (toDataURL : Canvas → String) :
    handleSubmit (some canvas) toDataURL
      = { capturedImage := some (toDataURL canvas), emitted := [] } := rfl

/-- C9: with an active stroke and anchor, draw strokes exactly the segment
from the anchor to the new point on the local surface, emits exactly that
payload with no transform, and advances the anchor to the point; with no
active stroke, or no anchor, it changes nothing and emits nothing. -/
theorem draw_active_exact_inactive_noop (st : WhiteboardState) (cv : Canvas)
    (anchor point : Point) :
    (st.isDrawing = true → st.lastPoint = some anchor →
        draw st (some cv) true (some point)
          = { state := { isDrawing := true, lastPoint := some point },
              canvas := some { segments := cv.segments
                  ++ [{ start := anchor, endP := point }] },
              emitted := [.draw { start := anchor, endP := point }] })
    ∧ (st.isDrawing = false →
        ∀ (canvasRef : Option Canvas) (socketPresent : Bool)
          (coords : Option Point),
          draw st canvasRef socketPresent coords
            = { state := st, canvas := canvasRef, emitted := [] })
    ∧ (st.lastPoint = none →
        ∀ (canvasRef : Option Canvas) (socketPresent : Bool)
          (coords : Option Point),
          draw st canvasRef socketPresent coords
            = { state := st, canvas := canvasRef, emitted := [] }) := by
  obtain ⟨sd, sp⟩ := st
  refine ⟨?_, ?_, ?_⟩
  · intro h1 h2
    have h1a : sd = true := h1
    have h2a : sp = some anchor := h2
    subst h1a
    subst h2a
    rfl
  · intro h1 canvasRef socketPresent coords
    have h1a : sd = false := h1
    subst h1a
    cases sp <;> rfl
  · intro h1 canvasRef socketPresent coords
    have h1a : sp = none := h1
    subst h1a
    cases sd <;> rfl

/-- C9 witness: the spec scenario segment from (10,10) to (20,20) with an
active stroke, and the inactive no-op. -/
theorem draw_witness :
    draw ⟨true, some ⟨10, 10⟩⟩ (some ⟨[]⟩) true (some ⟨20, 20⟩)
      = ⟨⟨true, some ⟨20, 20⟩⟩, some ⟨[⟨⟨10, 10⟩, ⟨20, 20⟩⟩]⟩,
         [.draw ⟨⟨10, 10⟩, ⟨20, 20⟩⟩]⟩
    ∧ draw ⟨false, none⟩ none false none = ⟨⟨false, none⟩, none, []⟩ :=
  ⟨(draw_active_exact_inactive_noop ⟨true, some ⟨10, 10⟩⟩ ⟨[]⟩
      ⟨10, 10⟩ ⟨20, 20⟩).1 rfl rfl,
   (draw_active_exact_inactive_noop ⟨false, none⟩ ⟨[]⟩
      ⟨0, 0⟩ ⟨0, 0⟩).2.1 rfl none false none⟩

end Symphony
